import Mathlib

/-!
Verification of the TaskFlow backend (`src/backend/src/app.py`,
`src/backend/src/models.py`): a FastAPI CRUD service over a relational
task store. We shallowly embed the data model, the request parsing and
validation performed by FastAPI/pydantic, and the five task endpoints
plus the health endpoint, and prove the spec's claims about them.

Modelling conventions:
- The relational table `tasks` is a `List TaskModel`; query order is the
  stable insertion order.
- `datetime` values are `Nat` timestamps; `func.now()` is an explicit
  `now : Nat` argument to every mutating operation.
- FastAPI/pydantic request-body validation runs before the handler; it is
  modelled by `parseTaskCreate` / `validateTaskUpdate` invoked at the
  start of the endpoint functions, returning a `schemaValidation` error
  (HTTP 422 with a pydantic message) on failure.
- pydantic's `model_dump(exclude_unset=True)` distinguishes an absent
  field from an explicit `null`: update fields are `Option (Option α)`,
  `none` = absent, `some none` = explicit null, `some (some v)` = value.
- SQLAlchemy emits an UPDATE statement (and hence fires the
  `onupdate=func.now()` refresh of `updated_at`) only when some column
  has a net change relative to its committed value; an update that
  changes nothing leaves the row, including `updated_at`, untouched.
-/

/-- Statuses of a task (`models.TaskStatus`): todo, in_progress, done. -/
inductive TaskStatus where
  | todo
  | in_progress
  | done
deriving DecidableEq, Repr

/-- Priorities of a task (`models.TaskPriority`): low, medium, high. -/
inductive TaskPriority where
  | low
  | medium
  | high
deriving DecidableEq, Repr

/-- A row of the `tasks` table (`models.TaskModel`). -/
structure TaskModel where
  id : String
  title : String
  description : Option String
  status : TaskStatus
  priority : TaskPriority
  assignee : Option String
  due_date : Option Nat
  created_at : Nat
  updated_at : Nat
deriving DecidableEq, Repr

/-- Python `str.strip()` on ASCII whitespace: drop leading and trailing
whitespace characters. -/
def pyStrip (s : String) : String :=
  String.mk (((s.data.dropWhile Char.isWhitespace).reverse.dropWhile
    Char.isWhitespace).reverse)

/-- Python truthiness of a string: `not s` holds exactly when `s` is empty. -/
def pyTruthy (s : String) : Bool := s != ""

/-- The JSON body of `POST /tasks` (wire form of `app.TaskCreate` before
pydantic parsing; `none` means the key is absent and the pydantic default
applies). -/
structure TaskCreateJson where
  title : String
  description : Option String := none
  status : Option TaskStatus := none
  priority : Option TaskPriority := none
  assignee : Option String := none
  due_date : Option Nat := none
deriving DecidableEq, Repr

/-- The parsed `app.TaskCreate` pydantic model, defaults applied. -/
structure TaskCreate where
  title : String
  description : Option String
  status : TaskStatus
  priority : TaskPriority
  assignee : Option String
  due_date : Option Nat
deriving DecidableEq, Repr

/-- The parsed `app.TaskUpdate` pydantic model, which (via
`model_dump(exclude_unset=True)`) remembers which fields were supplied:
outer `none` = field absent, `some none` = explicit JSON null,
`some (some v)` = value supplied. -/
structure TaskUpdate where
  title : Option (Option String) := none
  description : Option (Option String) := none
  status : Option TaskStatus := none
  priority : Option TaskPriority := none
  assignee : Option (Option String) := none
  due_date : Option (Option Nat) := none
deriving DecidableEq, Repr

/-- Errors surfaced at the HTTP boundary. -/
inductive ApiError where
  /-- FastAPI `RequestValidationError` from pydantic field validation
  (HTTP 422, structured `detail` carrying pydantic messages). -/
  | schemaValidation (msg : String)
  /-- An explicit `raise HTTPException(status_code, detail)`. -/
  | httpException (status_code : Nat) (detail : String)
  /-- An unhandled exception such as a primary-key `IntegrityError`
  (HTTP 500). -/
  | serverError (msg : String)
deriving DecidableEq, Repr

/-- HTTP status code of an error response. -/
def httpStatus : ApiError → Nat
  | .schemaValidation _ => 422
  | .httpException c _ => c
  | .serverError _ => 500

/-- pydantic validation of `TaskCreate`:
`title: min_length=1, max_length=200`, `description: max_length=1000`,
`assignee: max_length=100`; defaults `status=todo`, `priority=medium`. -/
def parseTaskCreate (r : TaskCreateJson) : Except ApiError TaskCreate :=
  if r.title.length < 1 then
    .error (.schemaValidation "String should have at least 1 character")
  else if 200 < r.title.length then
    .error (.schemaValidation "String should have at most 200 characters")
  else if (r.description.map String.length).getD 0 > 1000 then
    .error (.schemaValidation "String should have at most 1000 characters")
  else if (r.assignee.map String.length).getD 0 > 100 then
    .error (.schemaValidation "String should have at most 100 characters")
  else
    .ok { title := r.title, description := r.description,
          status := r.status.getD .todo, priority := r.priority.getD .medium,
          assignee := r.assignee, due_date := r.due_date }

/-- pydantic validation of `TaskUpdate`: each field is optional and may be
`null`; a supplied string value must satisfy the declared length bounds
(`title: min_length=1, max_length=200`, `description: max_length=1000`,
`assignee: max_length=100`). -/
def updStrOk (v : Option (Option String)) (lo hi : Nat) : Bool :=
  match v with
  | some (some s) => lo ≤ s.length && s.length ≤ hi
  | _ => true

/-- pydantic validation of a supplied `TaskUpdate` (see `updStrOk`). -/
def validateTaskUpdate (u : TaskUpdate) : Except ApiError Unit :=
  if ¬ updStrOk u.title 1 200 then
    .error (.schemaValidation "Title length out of bounds")
  else if ¬ updStrOk u.description 0 1000 then
    .error (.schemaValidation "String should have at most 1000 characters")
  else if ¬ updStrOk u.assignee 0 100 then
    .error (.schemaValidation "String should have at most 100 characters")
  else .ok ()

/-- `GET /tasks/{task_id}` (`app.get_task`): first row with the given id,
else 404. -/
def get_task (db : List TaskModel) (task_id : String) :
    Except ApiError TaskModel :=
  match db.find? (fun t => t.id == task_id) with
  | none => .error (.httpException 404 ("Task " ++ task_id ++ " not found"))
  | some t => .ok t

/-- `GET /tasks` (`app.get_tasks`): chained SQLAlchemy filters guarded by
Python truthiness (`if status:`, `if priority:`, `if assignee:`); enum
members are nonempty strings hence always truthy, while an empty-string
`assignee` is falsy and applies no filter. -/
def get_tasks (db : List TaskModel) (status? : Option TaskStatus)
    (priority? : Option TaskPriority) (assignee? : Option String) :
    List TaskModel :=
  let q := db
  let q := match status? with
    | some s => q.filter (fun t => t.status == s)
    | none => q
  let q := match priority? with
    | some p => q.filter (fun t => t.priority == p)
    | none => q
  match assignee? with
  | some a => if pyTruthy a then q.filter (fun t => t.assignee == some a) else q
  | none => q

/-- `POST /tasks` (`app.create_task`): pydantic parsing, then the handler's
blank-title check (`not title or not title.strip()` → 422
"Title cannot be empty"), then insert with a fresh id; the store assigns
`created_at` and `updated_at` from the same `func.now()`. A duplicate
primary key would make `db.commit()` raise (`ConflictError`, HTTP 500).
Returns the response and the resulting table. -/
def create_task (db : List TaskModel) (body : TaskCreateJson)
    (newId : String) (now : Nat) :
    Except ApiError TaskModel × List TaskModel :=
  match parseTaskCreate body with
  | .error e => (.error e, db)
  | .ok c =>
    if ¬ pyTruthy c.title ∨ ¬ pyTruthy (pyStrip c.title) then
      (.error (.httpException 422 "Title cannot be empty"), db)
    else if db.any (fun t => t.id == newId) then
      (.error (.serverError "IntegrityError: duplicate primary key"), db)
    else
      let task : TaskModel :=
        { id := newId, title := c.title, description := c.description,
          status := c.status, priority := c.priority,
          assignee := c.assignee, due_date := c.due_date,
          created_at := now, updated_at := now }
      (.ok task, db ++ [task])

/-- The `setattr` loop of `app.update_task` over
`update_data = updates.model_dump(exclude_unset=True)`: each supplied key
overwrites the column, an absent key leaves it; `id`, `created_at` and
`updated_at` are not update fields. (A supplied-`null` title never
reaches this loop: the handler rejects it first.) -/
def applyUpdates (t : TaskModel) (u : TaskUpdate) : TaskModel where
  id := t.id
  title := match u.title with
    | some (some s) => s
    | _ => t.title
  description := match u.description with
    | some d => d
    | none => t.description
  status := match u.status with
    | some s => s
    | none => t.status
  priority := match u.priority with
    | some p => p
    | none => t.priority
  assignee := match u.assignee with
    | some a => a
    | none => t.assignee
  due_date := match u.due_date with
    | some d => d
    | none => t.due_date
  created_at := t.created_at
  updated_at := t.updated_at

/-- The handler's blank-title check on the supplied update:
`"title" in update_data and (not update_data["title"] or not
update_data["title"].strip())` — fires on explicit null, empty, or
whitespace-only titles. -/
def titleInUpdateBlank (u : TaskUpdate) : Bool :=
  match u.title with
  | none => false
  | some none => true
  | some (some s) => ¬ pyTruthy s ∨ ¬ pyTruthy (pyStrip s)

/-- `PUT /tasks/{task_id}` (`app.update_task`): pydantic parsing, then the
existence check (404), then the handler's blank-title check (422), then
the `setattr` loop; the `onupdate=func.now()` refresh of `updated_at`
fires only when some column has a net change. Returns the response and
the resulting table. -/
def update_task (db : List TaskModel) (task_id : String) (updates : TaskUpdate)
    (now : Nat) : Except ApiError TaskModel × List TaskModel :=
  match validateTaskUpdate updates with
  | .error e => (.error e, db)
  | .ok _ =>
    match db.find? (fun t => t.id == task_id) with
    | none => (.error (.httpException 404 ("Task " ++ task_id ++ " not found")), db)
    | some task =>
      if titleInUpdateBlank updates then
        (.error (.httpException 422 "Title cannot be empty"), db)
      else
        let task' := applyUpdates task updates
        let final := if task' = task then task' else { task' with updated_at := now }
        (.ok final, db.map (fun t => if t.id == task_id then final else t))

/-- `DELETE /tasks/{task_id}` (`app.delete_task`): existence check (404),
then physical removal of the row. Returns the response (204 has an empty
body, modelled by `Unit`) and the resulting table. -/
def delete_task (db : List TaskModel) (task_id : String) :
    Except ApiError Unit × List TaskModel :=
  match db.find? (fun t => t.id == task_id) with
  | none => (.error (.httpException 404 ("Task " ++ task_id ++ " not found")), db)
  | some _ => (.ok (), db.filter (fun t => !(t.id == task_id)))

/-- The JSON body of `GET /health` (`app.health_check`); `tasks_count =
none` models the key being absent from the returned dict. -/
structure HealthBody where
  status : String
  database : String
  tasks_count : Option Nat
deriving DecidableEq, Repr

/-- `GET /health` (`app.health_check`): the session either answers
`SELECT 1` and the count query (`.ok db`) or raises (`.error e`, the
exception's message). Both branches return a plain dict, HTTP 200. -/
def health_check (session : Except String (List TaskModel)) :
    HealthBody × Nat :=
  match session with
  | .ok db =>
    ({ status := "healthy", database := "connected",
       tasks_count := some db.length }, 200)
  | .error e =>
    ({ status := "unhealthy", database := e, tasks_count := none }, 200)

/-- One API-level mutation of the store, with the id/clock inputs it needs. -/
inductive Op where
  | create (body : TaskCreateJson) (newId : String)
  | update (task_id : String) (updates : TaskUpdate)
  | delete (task_id : String)

/-- The store after one operation (errors leave it unchanged). -/
def applyOp (db : List TaskModel) (op : Op) (now : Nat) : List TaskModel :=
  match op with
  | .create body newId => (create_task db body newId now).snd
  | .update task_id updates => (update_task db task_id updates now).snd
  | .delete task_id => (delete_task db task_id).snd

/-! ### Fixtures and helper lemmas -/

/-- A concrete stored task used in concrete evaluations. -/
def task0 : TaskModel :=
  { id := "a", title := "t", description := none, status := .todo,
    priority := .medium, assignee := none, due_date := none,
    created_at := 0, updated_at := 0 }

/-- A 201-character title, one character over the pydantic bound. -/
def longTitle : String := String.mk (List.replicate 201 'a')

/-- The row inserted by a successful `POST /tasks`. -/
def insertedTask (c : TaskCreate) (newId : String) (now : Nat) : TaskModel :=
  { id := newId, title := c.title, description := c.description,
    status := c.status, priority := c.priority, assignee := c.assignee,
    due_date := c.due_date, created_at := now, updated_at := now }

/-- The row written back by a successful `PUT /tasks/{id}`: the `setattr`
result, with `updated_at` refreshed exactly when some column changed. -/
def updatedTask (task : TaskModel) (u : TaskUpdate) (now : Nat) : TaskModel :=
  if applyUpdates task u = task then applyUpdates task u
  else { applyUpdates task u with updated_at := now }

/-- Modelled from the spec's words: the conjunction of equality filters
over `status`, `priority`, `assignee`; an absent filter imposes no
constraint, a supplied one requires equality. -/
def matchesFilters (status? : Option TaskStatus)
    (priority? : Option TaskPriority) (assignee? : Option String)
    (t : TaskModel) : Bool :=
  (match status? with
    | some s => t.status == s
    | none => true) &&
  (match priority? with
    | some p => t.priority == p
    | none => true) &&
  (match assignee? with
    | some a => t.assignee == some a
    | none => true)

/-- An update body that explicitly nulls description, assignee, due_date. -/
def nullsUpd : TaskUpdate :=
  { description := some none, assignee := some none, due_date := some none }

/-- An update body whose title is an explicit JSON null. -/
def nullTitleUpd : TaskUpdate := { title := some none }

/-- The concrete create body used in the C2 witness. -/
def bodyW : TaskCreateJson := { title := "Write spec" }

/-- The parse of `bodyW`, defaults applied. -/
def cW : TaskCreate :=
  { title := "Write spec", description := none, status := .todo,
    priority := .medium, assignee := none, due_date := none }

theorem applyUpdates_id (t : TaskModel) (u : TaskUpdate) :
    (applyUpdates t u).id = t.id := rfl

theorem applyUpdates_created_at (t : TaskModel) (u : TaskUpdate) :
    (applyUpdates t u).created_at = t.created_at := rfl

theorem applyUpdates_updated_at (t : TaskModel) (u : TaskUpdate) :
    (applyUpdates t u).updated_at = t.updated_at := rfl

theorem parseTaskCreate_ok {body : TaskCreateJson} {c : TaskCreate}
    (h : parseTaskCreate body = .ok c) :
    c = { title := body.title, description := body.description,
          status := body.status.getD .todo,
          priority := body.priority.getD .medium,
          assignee := body.assignee, due_date := body.due_date } ∧
    1 ≤ body.title.length ∧ body.title.length ≤ 200 := by
  unfold parseTaskCreate at h
  split_ifs at h with h1 h2 h3 h4
  all_goals cases h
  exact ⟨rfl, by omega, by omega⟩

theorem parseTaskCreate_error_status {body : TaskCreateJson} {e : ApiError}
    (h : parseTaskCreate body = .error e) : httpStatus e = 422 := by
  unfold parseTaskCreate at h
  split_ifs at h <;> cases h <;> rfl

theorem create_task_parse_error {body : TaskCreateJson} {e : ApiError}
    (db : List TaskModel) (newId : String) (now : Nat)
    (hp : parseTaskCreate body = .error e) :
    create_task db body newId now = (.error e, db) := by
  unfold create_task
  rw [hp]

theorem create_task_parse_ok {body : TaskCreateJson} {c : TaskCreate}
    (db : List TaskModel) (newId : String) (now : Nat)
    (hp : parseTaskCreate body = .ok c) :
    create_task db body newId now =
      (if ¬ pyTruthy c.title = true ∨ ¬ pyTruthy (pyStrip c.title) = true then
        (.error (.httpException 422 "Title cannot be empty"), db)
      else if (db.any fun t => t.id == newId) = true then
        (.error (.serverError "IntegrityError: duplicate primary key"), db)
      else
        (.ok (insertedTask c newId now), db ++ [insertedTask c newId now])) := by
  unfold create_task
  rw [hp]
  rfl

theorem update_task_found {db : List TaskModel} {task_id : String}
    {task : TaskModel} (u : TaskUpdate) (now : Nat)
    (hv : validateTaskUpdate u = .ok ())
    (hfind : db.find? (fun t => t.id == task_id) = some task) :
    update_task db task_id u now =
      (if titleInUpdateBlank u = true then
        (.error (.httpException 422 "Title cannot be empty"), db)
      else
        (.ok (updatedTask task u now),
         db.map (fun t => if t.id == task_id then updatedTask task u now else t))) := by
  unfold update_task
  rw [hv, hfind]
  rfl

/-! ### Claim C10 -/

/-- Claim C10: in `GET /tasks`, an `assignee` query parameter supplied as
the empty string is treated exactly like an absent `assignee` filter — it
imposes no constraint, and the result equals that of the same request
without the parameter. -/
theorem C10_empty_assignee_filter (db : List TaskModel)
    (status? : Option TaskStatus) (priority? : Option TaskPriority) :
    get_tasks db status? priority? (some "") =
      get_tasks db status? priority? none := by
  simp [get_tasks, pyTruthy]

/-! ### Claim C8 -/

/-- Claim C8 counterexample: when the store session raises, the `/health`
body is `{status: "unhealthy", database: <error>}` with NO `tasks_count`
key (modelled as `tasks_count = none`), refuting "always returns a body
with the keys status, database, and tasks_count". The HTTP status is
still 200. -/
theorem C8_counterexample :
    (health_check (.error "connection refused")).fst.tasks_count = none ∧
    (health_check (.error "connection refused")).snd = 200 :=
  ⟨rfl, rfl⟩

/-- Claim C8 (amended): `GET /health` always answers HTTP 200; a reachable
store yields `{status: "healthy", database: "connected", tasks_count: n}`,
an unreachable store yields `{status: "unhealthy", database: <error
message>}` without a `tasks_count` key — unavailability is surfaced only
as degraded body content, never as a failing HTTP status code. -/
theorem C8_amended_health :
    (∀ db : List TaskModel, health_check (.ok db) =
      ({ status := "healthy", database := "connected",
         tasks_count := some db.length }, 200)) ∧
    (∀ e : String, health_check (.error e) =
      ({ status := "unhealthy", database := e, tasks_count := none }, 200)) :=
  ⟨fun _ => rfl, fun _ => rfl⟩

/-! ### Claim C4 (counterexample) -/

/-- Claim C4 counterexample: a `PUT` on task `"a"` with an empty field set
at time 5 succeeds (200 with the task in the response) but leaves
`updated_at` at 0: the SQLAlchemy `onupdate` refresh does not fire when no
column changes, so a successful empty partial update does NOT set
`updated_at` to the current time. -/
theorem C4_counterexample :
    (update_task [task0] "a" {} 5).fst = .ok task0 ∧
    task0.updated_at = 0 ∧ (0 : Nat) ≠ 5 :=
  ⟨rfl, rfl, by omega⟩

/-! ### Claim C5 (counterexample) -/

/-- Claim C5 counterexample: `POST /tasks` with `title = ""` is rejected by
pydantic's `min_length=1` before the handler runs; the 422 response
carries the schema-validation detail, not `"Title cannot be empty"` (no
record is persisted either way). -/
theorem C5_counterexample :
    create_task [] { title := "" } "id1" 0 =
      (.error (.schemaValidation "String should have at least 1 character"), []) ∧
    ApiError.schemaValidation "String should have at least 1 character" ≠
      ApiError.httpException 422 "Title cannot be empty" := by
  exact ⟨rfl, by decide⟩

/-! ### Claim C1 (counterexample) -/

set_option maxRecDepth 10000 in
/-- Claim C1 counterexample: a `PUT /tasks/{id}` whose id does not exist
(empty store) but whose payload carries a 201-character title yields 422
from request-body schema validation, not 404 — body validation runs
before the handler's existence check, refuting "yields 404 regardless of
the validity of the request payload". -/
theorem C1_counterexample :
    update_task [] "missing" { title := some (some longTitle) } 0 =
      (.error (.schemaValidation "Title length out of bounds"), []) ∧
    httpStatus (.schemaValidation "Title length out of bounds") = 422 ∧
    (422 : Nat) ≠ 404 :=
  ⟨rfl, rfl, by omega⟩

/-! ### Claim C6 (counterexample) -/

/-- Claim C6 counterexample: with one stored task having no assignee,
`GET /tasks?assignee=` (empty string supplied) returns that task, while
the conjunction of the supplied equality filters matches nothing — the
code treats a falsy (empty) assignee as absent instead of as an equality
constraint, so the result is not "exactly the tasks matching the
conjunction of the supplied equality filters". -/
theorem C6_counterexample :
    get_tasks [task0] none none (some "") = [task0] ∧
    List.filter (matchesFilters none none (some "")) [task0] = [] ∧
    ([task0] : List TaskModel) ≠ [] := by
  refine ⟨by decide, by decide, by simp⟩

/-! ### Claim C1 (amended) -/

/-- Claim C1 (amended): for payloads that pass request-body schema
validation (including a whitespace-only title, which the schema accepts),
the existence check precedes the handler's field validation: a
`PUT /tasks/{id}` or `DELETE /tasks/{id}` with a nonexistent id yields
404 and leaves the store unchanged. (A payload failing schema validation
yields 422 regardless of id existence.) -/
theorem C1_amended_missing_id (db : List TaskModel) (task_id : String)
    (u : TaskUpdate) (now : Nat)
    (hv : validateTaskUpdate u = .ok ())
    (hmiss : db.find? (fun t => t.id == task_id) = none) :
    update_task db task_id u now =
      (.error (.httpException 404 ("Task " ++ task_id ++ " not found")), db) ∧
    delete_task db task_id =
      (.error (.httpException 404 ("Task " ++ task_id ++ " not found")), db) := by
  constructor
  · unfold update_task
    rw [hv, hmiss]
  · unfold delete_task
    rw [hmiss]

/-- Witness for `C1_amended_missing_id`: an empty store, id `"missing"`,
and a payload whose title is whitespace-only (valid for the schema,
invalid for the handler) still yield 404 on both PUT and DELETE. -/
theorem C1_amended_missing_id_witness :
    validateTaskUpdate { title := some (some "   ") } = .ok () ∧
    ([] : List TaskModel).find? (fun t => t.id == "missing") = none ∧
    (update_task [] "missing" { title := some (some "   ") } 0 =
      (.error (.httpException 404 "Task missing not found"), []) ∧
     delete_task [] "missing" =
      (.error (.httpException 404 "Task missing not found"), [])) :=
  ⟨rfl, rfl, C1_amended_missing_id [] "missing" { title := some (some "   ") } 0 rfl rfl⟩

/-! ### Claim C5 (amended) -/

/-- Claim C5 (amended): a `POST /tasks` whose title strips to the empty
string always fails with 422 and persists no record — the stored table
(hence any later list result) is unchanged; when the body passes schema
validation (so the title is whitespace-only rather than empty), the
detail is exactly "Title cannot be empty", while an empty title is
rejected earlier by schema validation with a pydantic detail. -/
theorem C5_amended_blank_title (db : List TaskModel) (body : TaskCreateJson)
    (newId : String) (now : Nat)
    (ht : pyStrip body.title = "") :
    (create_task db body newId now).snd = db ∧
    (∃ e, (create_task db body newId now).fst = .error e ∧ httpStatus e = 422) ∧
    (∀ c, parseTaskCreate body = .ok c →
      (create_task db body newId now).fst =
        .error (.httpException 422 "Title cannot be empty")) := by
  cases hp : parseTaskCreate body with
  | error e =>
    rw [create_task_parse_error db newId now hp]
    refine ⟨rfl, ⟨e, rfl, parseTaskCreate_error_status hp⟩, ?_⟩
    intro c hc
    cases hc
  | ok c =>
    have hct : c.title = body.title := by
      rw [(parseTaskCreate_ok hp).1]
    have hcond : (¬ pyTruthy c.title = true ∨ ¬ pyTruthy (pyStrip c.title) = true) := by
      right
      rw [hct, ht]
      simp [pyTruthy]
    rw [create_task_parse_ok db newId now hp, if_pos hcond]
    exact ⟨rfl, ⟨_, rfl, rfl⟩, fun c' _ => rfl⟩

/-- Witness for `C5_amended_blank_title`: `title = "   "` on an empty
store — 422 with detail "Title cannot be empty", no record persisted. -/
theorem C5_amended_blank_title_witness :
    pyStrip "   " = "" ∧
    ((create_task [] { title := "   " } "id1" 7).snd = [] ∧
     (∃ e, (create_task [] { title := "   " } "id1" 7).fst = .error e ∧
        httpStatus e = 422) ∧
     (∀ c, parseTaskCreate { title := "   " } = .ok c →
        (create_task [] { title := "   " } "id1" 7).fst =
          .error (.httpException 422 "Title cannot be empty"))) :=
  ⟨by decide, C5_amended_blank_title [] { title := "   " } "id1" 7 (by decide)⟩

/-! ### updatedTask projection lemmas -/

theorem updatedTask_id (t : TaskModel) (u : TaskUpdate) (now : Nat) :
    (updatedTask t u now).id = t.id := by
  unfold updatedTask
  split <;> rfl

theorem updatedTask_created_at (t : TaskModel) (u : TaskUpdate) (now : Nat) :
    (updatedTask t u now).created_at = t.created_at := by
  unfold updatedTask
  split <;> rfl

theorem updatedTask_title_of_none {u : TaskUpdate} (t : TaskModel) (now : Nat)
    (h : u.title = none) : (updatedTask t u now).title = t.title := by
  unfold updatedTask
  split <;> simp [applyUpdates, h]

theorem updatedTask_description_of_none {u : TaskUpdate} (t : TaskModel)
    (now : Nat) (h : u.description = none) :
    (updatedTask t u now).description = t.description := by
  unfold updatedTask
  split <;> simp [applyUpdates, h]

theorem updatedTask_status_of_none {u : TaskUpdate} (t : TaskModel) (now : Nat)
    (h : u.status = none) : (updatedTask t u now).status = t.status := by
  unfold updatedTask
  split <;> simp [applyUpdates, h]

theorem updatedTask_priority_of_none {u : TaskUpdate} (t : TaskModel)
    (now : Nat) (h : u.priority = none) :
    (updatedTask t u now).priority = t.priority := by
  unfold updatedTask
  split <;> simp [applyUpdates, h]

theorem updatedTask_assignee_of_none {u : TaskUpdate} (t : TaskModel)
    (now : Nat) (h : u.assignee = none) :
    (updatedTask t u now).assignee = t.assignee := by
  unfold updatedTask
  split <;> simp [applyUpdates, h]

theorem updatedTask_due_date_of_none {u : TaskUpdate} (t : TaskModel)
    (now : Nat) (h : u.due_date = none) :
    (updatedTask t u now).due_date = t.due_date := by
  unfold updatedTask
  split <;> simp [applyUpdates, h]

theorem updatedTask_description_of_null {u : TaskUpdate} (t : TaskModel)
    (now : Nat) (h : u.description = some none) :
    (updatedTask t u now).description = none := by
  unfold updatedTask
  split <;> simp [applyUpdates, h]

theorem updatedTask_assignee_of_null {u : TaskUpdate} (t : TaskModel)
    (now : Nat) (h : u.assignee = some none) :
    (updatedTask t u now).assignee = none := by
  unfold updatedTask
  split <;> simp [applyUpdates, h]

theorem updatedTask_due_date_of_null {u : TaskUpdate} (t : TaskModel)
    (now : Nat) (h : u.due_date = some none) :
    (updatedTask t u now).due_date = none := by
  unfold updatedTask
  split <;> simp [applyUpdates, h]

theorem updatedTask_updated_at_of_ne {u : TaskUpdate} {t : TaskModel}
    (now : Nat) (h : applyUpdates t u ≠ t) :
    (updatedTask t u now).updated_at = now := by
  unfold updatedTask
  rw [if_neg h]

/-- From a successful update response, recover that the returned row is
`updatedTask` of the stored row. -/
theorem update_ok_inv {db : List TaskModel} {task_id : String}
    {u : TaskUpdate} {now : Nat} {task t'' : TaskModel} {db' : List TaskModel}
    (hfind : db.find? (fun t => t.id == task_id) = some task)
    (h : update_task db task_id u now = (.ok t'', db')) :
    t'' = updatedTask task u now := by
  cases hv : validateTaskUpdate u with
  | error e =>
    unfold update_task at h
    rw [hv] at h
    exact Except.noConfusion (congrArg Prod.fst h)
  | ok v =>
    rw [update_task_found u now hv hfind] at h
    by_cases hb : titleInUpdateBlank u = true
    · rw [if_pos hb] at h
      exact Except.noConfusion (congrArg Prod.fst h)
    · rw [if_neg hb] at h
      have := congrArg Prod.fst h
      simpa using this.symm

/-! ### Claim C3 -/

/-- Claim C3: a successful `PUT /tasks/{id}` leaves every mutable field
that was absent from the request body at its prior value; `id` and
`created_at` are unchanged unconditionally — only the supplied fields
change. -/
theorem C3_partial_update_frame (db : List TaskModel) (task_id : String)
    (u : TaskUpdate) (now : Nat) (task t'' : TaskModel) (db' : List TaskModel)
    (hfind : db.find? (fun t => t.id == task_id) = some task)
    (h : update_task db task_id u now = (.ok t'', db')) :
    t''.id = task.id ∧ t''.created_at = task.created_at ∧
    (u.title = none → t''.title = task.title) ∧
    (u.description = none → t''.description = task.description) ∧
    (u.status = none → t''.status = task.status) ∧
    (u.priority = none → t''.priority = task.priority) ∧
    (u.assignee = none → t''.assignee = task.assignee) ∧
    (u.due_date = none → t''.due_date = task.due_date) := by
  rw [update_ok_inv hfind h]
  exact ⟨updatedTask_id task u now, updatedTask_created_at task u now,
    fun hn => updatedTask_title_of_none task now hn,
    fun hn => updatedTask_description_of_none task now hn,
    fun hn => updatedTask_status_of_none task now hn,
    fun hn => updatedTask_priority_of_none task now hn,
    fun hn => updatedTask_assignee_of_none task now hn,
    fun hn => updatedTask_due_date_of_none task now hn⟩

/-- Witness for `C3_partial_update_frame`: updating only `status` of the
stored task `"a"` keeps every other field. -/
theorem C3_partial_update_frame_witness :
    ([task0].find? (fun t => t.id == "a") = some task0) ∧
    (update_task [task0] "a" { status := some .done } 9 =
      (.ok (updatedTask task0 { status := some .done } 9),
       [updatedTask task0 { status := some .done } 9])) ∧
    ((updatedTask task0 { status := some .done } 9).id = task0.id ∧
     (updatedTask task0 { status := some .done } 9).created_at = task0.created_at ∧
     (({ status := some .done } : TaskUpdate).title = none →
       (updatedTask task0 { status := some .done } 9).title = task0.title) ∧
     (({ status := some .done } : TaskUpdate).description = none →
       (updatedTask task0 { status := some .done } 9).description = task0.description) ∧
     (({ status := some .done } : TaskUpdate).status = none →
       (updatedTask task0 { status := some .done } 9).status = task0.status) ∧
     (({ status := some .done } : TaskUpdate).priority = none →
       (updatedTask task0 { status := some .done } 9).priority = task0.priority) ∧
     (({ status := some .done } : TaskUpdate).assignee = none →
       (updatedTask task0 { status := some .done } 9).assignee = task0.assignee) ∧
     (({ status := some .done } : TaskUpdate).due_date = none →
       (updatedTask task0 { status := some .done } 9).due_date = task0.due_date)) :=
  ⟨rfl, rfl,
   C3_partial_update_frame [task0] "a" { status := some .done } 9 task0
     (updatedTask task0 { status := some .done } 9)
     [updatedTask task0 { status := some .done } 9] rfl rfl⟩

/-! ### Claim C4 (amended) -/

/-- Claim C4 (amended): a successful `PUT /tasks/{id}` whose applied field
set actually changes the stored row sets `updated_at` to the current
time; hence, at a strictly later clock, `updated_at` strictly increases.
(An empty or no-op field set leaves `updated_at` unchanged, see
`C4_counterexample`.) -/
theorem C4_amended_updated_at (db : List TaskModel) (task_id : String)
    (u : TaskUpdate) (now : Nat) (task t'' : TaskModel) (db' : List TaskModel)
    (hfind : db.find? (fun t => t.id == task_id) = some task)
    (h : update_task db task_id u now = (.ok t'', db'))
    (hchange : applyUpdates task u ≠ task)
    (hclock : task.updated_at < now) :
    t''.updated_at = now ∧ task.updated_at < t''.updated_at := by
  rw [update_ok_inv hfind h, updatedTask_updated_at_of_ne now hchange]
  exact ⟨rfl, hclock⟩

/-- Witness for `C4_amended_updated_at`: marking task `"a"` done at time 9
refreshes `updated_at` from 0 to 9. -/
theorem C4_amended_updated_at_witness :
    ([task0].find? (fun t => t.id == "a") = some task0) ∧
    (update_task [task0] "a" { status := some .done } 9 =
      (.ok (updatedTask task0 { status := some .done } 9),
       [updatedTask task0 { status := some .done } 9])) ∧
    applyUpdates task0 { status := some .done } ≠ task0 ∧
    task0.updated_at < 9 ∧
    ((updatedTask task0 { status := some .done } 9).updated_at = 9 ∧
     task0.updated_at < (updatedTask task0 { status := some .done } 9).updated_at) :=
  ⟨rfl, rfl, by decide, by decide,
   C4_amended_updated_at [task0] "a" { status := some .done } 9 task0
     (updatedTask task0 { status := some .done } 9)
     [updatedTask task0 { status := some .done } 9] rfl rfl (by decide) (by decide)⟩

/-! ### Claim C9 -/

/-- Claim C9: `PUT /tasks/{id}` distinguishes an absent field from an
explicit null: a body containing `"title": null` is rejected with 422
"Title cannot be empty", while an explicit null `description`,
`assignee`, or `due_date` sets the stored field to null rather than
leaving it unchanged. -/
theorem C9_null_vs_absent (db : List TaskModel) (task_id : String)
    (u : TaskUpdate) (now : Nat) (task : TaskModel)
    (hfind : db.find? (fun t => t.id == task_id) = some task)
    (hv : validateTaskUpdate u = .ok ()) :
    (u.title = some none →
      update_task db task_id u now =
        (.error (.httpException 422 "Title cannot be empty"), db)) ∧
    (∀ t'' db', update_task db task_id u now = (.ok t'', db') →
      (u.description = some none → t''.description = none) ∧
      (u.assignee = some none → t''.assignee = none) ∧
      (u.due_date = some none → t''.due_date = none)) := by
  constructor
  · intro htn
    rw [update_task_found u now hv hfind,
      if_pos (show titleInUpdateBlank u = true by simp [titleInUpdateBlank, htn])]
  · intro t'' db' h
    rw [update_ok_inv hfind h]
    exact ⟨fun hn => updatedTask_description_of_null task now hn,
      fun hn => updatedTask_assignee_of_null task now hn,
      fun hn => updatedTask_due_date_of_null task now hn⟩

/-- Witness for `C9_null_vs_absent`: on the stored task `"a"`, a
`{"title": null}` body yields 422, and a `{"description": null,
"assignee": null, "due_date": null}` body nulls those fields. -/
theorem C9_null_vs_absent_witness :
    ([task0].find? (fun t => t.id == "a") = some task0) ∧
    validateTaskUpdate nullsUpd = .ok () ∧
    (∀ t'' db', update_task [task0] "a" nullsUpd 9 = (.ok t'', db') →
      (nullsUpd.description = some none → t''.description = none) ∧
      (nullsUpd.assignee = some none → t''.assignee = none) ∧
      (nullsUpd.due_date = some none → t''.due_date = none)) ∧
    validateTaskUpdate nullTitleUpd = .ok () ∧
    (nullTitleUpd.title = some none →
      update_task [task0] "a" nullTitleUpd 9 =
        (.error (.httpException 422 "Title cannot be empty"), [task0])) :=
  ⟨rfl, rfl,
   (C9_null_vs_absent [task0] "a" nullsUpd 9 task0 rfl rfl).2,
   rfl,
   (C9_null_vs_absent [task0] "a" nullTitleUpd 9 task0 rfl rfl).1⟩

/-! ### Claim C2 -/

/-- Claim C2: after a successful `POST /tasks`, an immediate
`GET /tasks/{id}` with the returned id succeeds and returns the same
field values supplied in the create request (defaults applied to omitted
status/priority), with a non-empty server-assigned id and
`created_at = updated_at`. The hypotheses say the body passes validation
(`hparse`), is not blank after stripping (`hblank`), and the generated
UUID string is non-empty and fresh (`hid`, `hfresh`). -/
theorem C2_create_then_get (db : List TaskModel) (body : TaskCreateJson)
    (newId : String) (now : Nat) (c : TaskCreate)
    (hparse : parseTaskCreate body = .ok c)
    (hblank : pyTruthy (pyStrip body.title) = true)
    (hid : newId ≠ "")
    (hfresh : ∀ t ∈ db, (t.id == newId) = false) :
    ∃ task db',
      create_task db body newId now = (.ok task, db') ∧
      get_task db' newId = .ok task ∧
      task.id = newId ∧ task.id ≠ "" ∧
      task.title = body.title ∧
      task.description = body.description ∧
      task.status = body.status.getD .todo ∧
      task.priority = body.priority.getD .medium ∧
      task.assignee = body.assignee ∧
      task.due_date = body.due_date ∧
      task.created_at = now ∧ task.updated_at = now := by
  obtain ⟨hc, hlen1, -⟩ := parseTaskCreate_ok hparse
  subst hc
  have htruthy : pyTruthy body.title = true := by
    simp only [pyTruthy, bne_iff_ne, ne_eq]
    intro h0
    rw [h0] at hlen1
    exact absurd hlen1 (by decide)
  have hany : (db.any fun t => t.id == newId) = false := by
    rw [List.any_eq_false]
    intro t ht
    simp [hfresh t ht]
  rw [create_task_parse_ok db newId now hparse,
    if_neg (show ¬ _ by simp [htruthy, hblank]),
    if_neg (show ¬ _ by simp [hany])]
  refine ⟨_, _, rfl, ?_, rfl, hid, rfl, rfl, rfl, rfl, rfl, rfl, rfl, rfl⟩
  have hnone : db.find? (fun t => t.id == newId) = none := by
    rw [List.find?_eq_none]
    intro t ht
    simp [hfresh t ht]
  unfold get_task
  rw [List.find?_append, hnone]
  simp [insertedTask]

/-- Witness for `C2_create_then_get`: `POST {title: "Write spec"}` on an
empty store with fresh id `"id1"` at time 3, then `GET /tasks/id1`. -/
theorem C2_create_then_get_witness :
    parseTaskCreate bodyW = .ok cW ∧
    pyTruthy (pyStrip bodyW.title) = true ∧
    ("id1" : String) ≠ "" ∧
    (∀ t ∈ ([] : List TaskModel), (t.id == "id1") = false) ∧
    (∃ task db',
      create_task [] bodyW "id1" 3 = (.ok task, db') ∧
      get_task db' "id1" = .ok task ∧
      task.id = "id1" ∧ task.id ≠ "" ∧
      task.title = bodyW.title ∧
      task.description = bodyW.description ∧
      task.status = bodyW.status.getD .todo ∧
      task.priority = bodyW.priority.getD .medium ∧
      task.assignee = bodyW.assignee ∧
      task.due_date = bodyW.due_date ∧
      task.created_at = 3 ∧ task.updated_at = 3) :=
  ⟨rfl, by decide, by decide, by simp,
   C2_create_then_get [] bodyW "id1" 3 cW rfl (by decide) (by decide) (by simp)⟩

/-! ### Claim C6 (amended) -/

/-- Claim C6 (amended): for every combination of well-typed filters in
which a supplied assignee is non-empty (an empty-string assignee is
treated as absent, see `C10_empty_assignee_filter`), `GET /tasks` returns
exactly the stored tasks matching the conjunction of the supplied
equality filters; the handler is total (no failure case) and yields the
empty array when nothing matches. -/
theorem C6_amended_list_filters (db : List TaskModel)
    (status? : Option TaskStatus) (priority? : Option TaskPriority)
    (assignee? : Option String) (h : assignee? ≠ some "") :
    get_tasks db status? priority? assignee? =
      db.filter (matchesFilters status? priority? assignee?) := by
  rcases assignee? with _ | a
  · rcases status? with _ | s <;> rcases priority? with _ | p <;>
      simp only [get_tasks, List.filter_filter] <;>
      first
        | exact (List.filter_eq_self.mpr fun t ht => rfl).symm
        | exact List.filter_congr fun t ht => by
            simp [matchesFilters, Bool.and_comm, Bool.and_left_comm,
              Bool.and_assoc]
  · have ha' : a ≠ "" := fun heq => h (by rw [heq])
    have ha : pyTruthy a = true := by
      simpa [pyTruthy] using ha'
    rcases status? with _ | s <;> rcases priority? with _ | p <;>
      simp only [get_tasks, ha, if_true, List.filter_filter] <;>
      first
        | exact (List.filter_eq_self.mpr fun t ht => rfl).symm
        | exact List.filter_congr fun t ht => by
            simp [matchesFilters, Bool.and_comm, Bool.and_left_comm,
              Bool.and_assoc]

/-- Witness for `C6_amended_list_filters`: a supplied non-empty assignee
filter on a one-task store. -/
theorem C6_amended_list_filters_witness :
    (some "x" ≠ some "") ∧
    get_tasks [task0] none none (some "x") =
      List.filter (matchesFilters none none (some "x")) [task0] :=
  ⟨by simp, C6_amended_list_filters [task0] none none (some "x") (by simp)⟩

/-! ### List lemmas for the C7 invariant -/

theorem find?_map_of_pres {α : Type} {f : α → α} {p : α → Bool}
    (hf : ∀ a, p (f a) = p a) (l : List α) :
    (l.map f).find? p = (l.find? p).map f := by
  have hpf : p ∘ f = p := funext hf
  rw [List.find?_map, hpf]

theorem find?_filter_of_imp {α : Type} {q p : α → Bool}
    (h : ∀ a, p a = true → q a = true) (l : List α) :
    (l.filter q).find? p = l.find? p := by
  rw [List.find?_filter]
  congr 1
  funext a
  cases hp : p a with
  | true => simp [h a hp, hp]
  | false => simp [hp]

theorem find?_append_some {α : Type} {p : α → Bool} {l₁ : List α} {t : α}
    (l₂ : List α) (h : l₁.find? p = some t) :
    (l₁ ++ l₂).find? p = some t := by
  rw [List.find?_append, h]
  rfl

/-- Both C7 conclusions hold trivially when the operation leaves the
store unchanged. -/
theorem c7_goals_of_unchanged {db db' : List TaskModel}
    (hInv : ∀ t ∈ db, t.created_at ≤ t.updated_at) (hEq : db' = db) :
    (∀ t' ∈ db', t'.created_at ≤ t'.updated_at) ∧
    (∀ i t t', db.find? (fun x => x.id == i) = some t →
      db'.find? (fun x => x.id == i) = some t' →
      t'.created_at = t.created_at) := by
  subst hEq
  refine ⟨hInv, fun i t t' h1 h2 => ?_⟩
  rw [h1] at h2
  cases h2
  rfl

theorem updatedTask_le {task : TaskModel} (u : TaskUpdate) (now : Nat)
    (h1 : task.created_at ≤ task.updated_at) (h2 : task.updated_at ≤ now) :
    (updatedTask task u now).created_at ≤ (updatedTask task u now).updated_at := by
  unfold updatedTask
  split
  · exact h1
  · show task.created_at ≤ now
    omega

/-! ### Claim C7 -/

/-- Claim C7: any single API operation (create, update, or delete), run at
a clock `now` not earlier than every stored timestamp, preserves the
invariant `created_at ≤ updated_at` for every stored task, and never
modifies the `created_at` of an id that exists before and after the
operation — `created_at` is set once at insert time. -/
theorem C7_created_at_invariant (db : List TaskModel) (op : Op) (now : Nat)
    (hInv : ∀ t ∈ db, t.created_at ≤ t.updated_at)
    (hClock : ∀ t ∈ db, t.updated_at ≤ now) :
    (∀ t' ∈ applyOp db op now, t'.created_at ≤ t'.updated_at) ∧
    (∀ i t t', db.find? (fun x => x.id == i) = some t →
      (applyOp db op now).find? (fun x => x.id == i) = some t' →
      t'.created_at = t.created_at) := by
  cases op with
  | create body newId =>
    simp only [applyOp]
    cases hp : parseTaskCreate body with
    | error e =>
      exact c7_goals_of_unchanged hInv
        (by rw [create_task_parse_error db newId now hp])
    | ok c =>
      by_cases h1 : (¬ pyTruthy c.title = true ∨ ¬ pyTruthy (pyStrip c.title) = true)
      · exact c7_goals_of_unchanged hInv
          (by rw [create_task_parse_ok db newId now hp, if_pos h1])
      · by_cases h2 : (db.any fun t => t.id == newId) = true
        · exact c7_goals_of_unchanged hInv
            (by rw [create_task_parse_ok db newId now hp, if_neg h1, if_pos h2])
        · have hEq : (create_task db body newId now).snd =
              db ++ [insertedTask c newId now] := by
            rw [create_task_parse_ok db newId now hp, if_neg h1, if_neg h2]
          rw [hEq]
          constructor
          · intro t' ht'
            rcases List.mem_append.mp ht' with hmem | hmem
            · exact hInv t' hmem
            · have ht'' : t' = insertedTask c newId now := by simpa using hmem
              subst ht''
              exact Nat.le_refl _
          · intro i t t' hf1 hf2
            rw [find?_append_some _ hf1] at hf2
            cases hf2
            rfl
  | update task_id u =>
    simp only [applyOp]
    cases hv : validateTaskUpdate u with
    | error e =>
      refine c7_goals_of_unchanged hInv ?_
      unfold update_task
      rw [hv]
    | ok v =>
      cases hfind : db.find? (fun t => t.id == task_id) with
      | none =>
        refine c7_goals_of_unchanged hInv ?_
        unfold update_task
        rw [hv, hfind]
      | some task =>
        by_cases hb : titleInUpdateBlank u = true
        · exact c7_goals_of_unchanged hInv
            (by rw [update_task_found u now hv hfind, if_pos hb])
        · have hEq : (update_task db task_id u now).snd =
              db.map (fun t => if t.id == task_id then updatedTask task u now
                else t) := by
            rw [update_task_found u now hv hfind, if_neg hb]
          rw [hEq]
          have hmem_task : task ∈ db := List.mem_of_find?_eq_some hfind
          have htid' := List.find?_some hfind
          have htid : task.id = task_id := eq_of_beq (by simpa using htid')
          constructor
          · intro t' ht'
            rcases List.mem_map.mp ht' with ⟨s, hs, hst⟩
            by_cases hsid : (s.id == task_id) = true
            · rw [if_pos hsid] at hst
              subst hst
              exact updatedTask_le u now (hInv task hmem_task)
                (hClock task hmem_task)
            · rw [if_neg hsid] at hst
              subst hst
              exact hInv s hs
          · intro i t t' hf1 hf2
            have hpres : ∀ s : TaskModel,
                (fun x => x.id == i)
                  ((fun t => if t.id == task_id then updatedTask task u now
                    else t) s) = (fun x => x.id == i) s := by
              intro s
              dsimp only
              by_cases hsid : (s.id == task_id) = true
              · rw [if_pos hsid, updatedTask_id, htid, eq_of_beq hsid]
              · rw [if_neg hsid]
            rw [find?_map_of_pres hpres db, hf1] at hf2
            cases hf2
            dsimp only
            by_cases htid2 : (t.id == task_id) = true
            · rw [if_pos htid2, updatedTask_created_at]
              have hti := List.find?_some hf1
              have hi : i = task_id :=
                (eq_of_beq (by simpa using hti)).symm.trans (eq_of_beq htid2)
              subst hi
              rw [hfind] at hf1
              cases hf1
              rfl
            · rw [if_neg htid2]
  | delete task_id =>
    simp only [applyOp]
    cases hfind : db.find? (fun t => t.id == task_id) with
    | none =>
      refine c7_goals_of_unchanged hInv ?_
      unfold delete_task
      rw [hfind]
    | some task =>
      have hEq : (delete_task db task_id).snd =
          db.filter (fun t => !(t.id == task_id)) := by
        unfold delete_task
        rw [hfind]
      rw [hEq]
      constructor
      · intro t' ht'
        exact hInv t' (List.mem_of_mem_filter ht')
      · intro i t t' hf1 hf2
        by_cases hit : i = task_id
        · subst hit
          have hnone : (db.filter (fun t => !(t.id == i))).find?
              (fun x => x.id == i) = none := by
            rw [List.find?_eq_none]
            intro x hx
            have hq := (List.mem_filter.mp hx).2
            rw [Bool.not_eq_true'] at hq
            simp [hq]
          rw [hnone] at hf2
          cases hf2
        · have himp : ∀ a : TaskModel, ((fun x => x.id == i) a) = true →
              ((fun t => !(t.id == task_id)) a) = true := by
            intro a ha
            dsimp only at ha ⊢
            rw [eq_of_beq ha, Bool.not_eq_true', beq_eq_false_iff_ne]
            exact hit
          rw [find?_filter_of_imp himp db, hf1] at hf2
          cases hf2
          rfl

/-- Witness for `C7_created_at_invariant`: updating task `"a"` (stored
with `created_at = updated_at = 0`) at time 9. -/
theorem C7_created_at_invariant_witness :
    (∀ t ∈ [task0], t.created_at ≤ t.updated_at) ∧
    (∀ t ∈ [task0], t.updated_at ≤ 9) ∧
    ((∀ t' ∈ applyOp [task0] (.update "a" nullsUpd) 9,
        t'.created_at ≤ t'.updated_at) ∧
     (∀ i t t', [task0].find? (fun x => x.id == i) = some t →
        (applyOp [task0] (.update "a" nullsUpd) 9).find?
          (fun x => x.id == i) = some t' →
        t'.created_at = t.created_at)) :=
  ⟨by simp [task0], by simp [task0],
   C7_created_at_invariant [task0] (.update "a" nullsUpd) 9
     (by simp [task0]) (by simp [task0])⟩
